import Mathlib

/-!
Verification of the ai-data-logger service of the `phda` repository.

The development shallowly embeds the implemented core of the repository:

* `src/shared/models/health_logs.py` — the six fact-table row types;
* `src/shared/utils/database.py` — the scoped-session persistence gateway
  `get_session`;
* `src/services/ai-data-logger/health_log_tools.py` — the three logging
  tools `log_heart_data`, `log_body_data`, `log_sauna_data`;
* `src/services/ai-data-logger/app/agent.py` — the system prompt, the
  `should_continue` routing function, `call_model`, `get_llm_model`, and the
  two-node reason/act graph built by `create_health_logger_agent`;
* `src/services/ai-data-logger/app/main.py` — the `/chat` endpoint's message
  conversion and logged-item extraction.

Machine-level effects are made explicit: the persistence layer is a store of
per-table row lists, and exceptions raised by the database are driven by an
oracle listing the outcome of each successive `session.commit()` call.
Python floats only flow through the tools unchanged, so they are carried as
rationals; `datetime` values are carried as an opaque wrapper around their
ISO rendering.
-/

/-- A Python `datetime` value, carried opaquely by its ISO-8601 rendering.
The tools never compute with the timestamp; they store it and echo
`datetime_value.isoformat()`. -/
structure PyDateTime where
  iso : String
deriving DecidableEq, Repr

/-- `datetime.isoformat()` as used by the tools to echo the timestamp. -/
def PyDateTime.isoformat (d : PyDateTime) : String := d.iso

/-- Row of `heart_log` (`HeartLog` in `src/shared/models/health_logs.py`).
The surrogate `id` column is assigned by the store and is not part of the
inserted value. -/
structure HeartLog where
  datetime : PyDateTime
  systolic_mmhg : Int
  diastolic_mmhg : Int
  rate_bpm : Int
deriving DecidableEq, Repr

/-- `HeartLog.__tablename__`. -/
def HeartLog.tablename : String := "heart_log"

/-- Row of `body_log` (`BodyLog` in `src/shared/models/health_logs.py`). -/
structure BodyLog where
  datetime : PyDateTime
  weight_lb : Rat
  smm_lb : Rat
  pbf : Rat
  ecw_tcw : Rat
deriving DecidableEq, Repr

/-- `BodyLog.__tablename__`. -/
def BodyLog.tablename : String := "body_log"

/-- Row of `nutrition_log` (`NutritionLog` in
`src/shared/models/health_logs.py`). -/
structure NutritionLog where
  datetime : PyDateTime
  short_description : String
  protein_g : Rat
  sodium_mg : Rat
  potassium_mg : Rat
  long_description : String
deriving DecidableEq, Repr

/-- `NutritionLog.__tablename__`. -/
def NutritionLog.tablename : String := "nutrition_log"

/-- Row of `caffeine_log` (`CaffeineLog` in
`src/shared/models/health_logs.py`). -/
structure CaffeineLog where
  datetime : PyDateTime
  item_description : String
  caffeine_mg : Rat
deriving DecidableEq, Repr

/-- `CaffeineLog.__tablename__`. -/
def CaffeineLog.tablename : String := "caffeine_log"

/-- Row of `alcohol_log` (`AlcoholLog` in
`src/shared/models/health_logs.py`). -/
structure AlcoholLog where
  datetime : PyDateTime
  item_description : String
  alcohol_oz : Rat
deriving DecidableEq, Repr

/-- `AlcoholLog.__tablename__`. -/
def AlcoholLog.tablename : String := "alcohol_log"

/-- Row of `sauna_log` (`SaunaLog` in `src/shared/models/health_logs.py`).
The table has exactly two domain columns: `datetime` and `duration_min`;
there is no temperature column. -/
structure SaunaLog where
  datetime : PyDateTime
  duration_min : Int
deriving DecidableEq, Repr

/-- `SaunaLog.__tablename__`. -/
def SaunaLog.tablename : String := "sauna_log"

/-- The six fact tables of the structured store, by `__tablename__`, in the
order they are declared in `src/shared/models/health_logs.py`. -/
def fact_tables : List String :=
  [HeartLog.tablename, BodyLog.tablename, NutritionLog.tablename,
   CaffeineLog.tablename, AlcoholLog.tablename, SaunaLog.tablename]

/-- The relational store: one append-only row list per fact table. -/
structure Store where
  heart_log : List HeartLog
  body_log : List BodyLog
  nutrition_log : List NutritionLog
  caffeine_log : List CaffeineLog
  alcohol_log : List AlcoholLog
  sauna_log : List SaunaLog
deriving DecidableEq, Repr

/-- The empty store. -/
def Store.empty : Store := ⟨[], [], [], [], [], []⟩

/-!
## Persistence gateway (`src/shared/utils/database.py`)

A SQLAlchemy session scoped to one fact table: `table` holds the committed
rows, `pending` the rows added since the last commit, and `oracle` drives
the outcome of each successive `session.commit()` call — `none` means the
commit succeeds, `some e` means the persistence layer raises an exception
whose `str()` is `e`.  An exhausted oracle means every further commit
succeeds.
-/

/-- In-flight session state over one fact table. -/
structure SessionState (Row : Type) where
  table : List Row
  pending : List Row
  oracle : List (Option String)

/-- `session.add(row)`: stage a row without touching the committed table. -/
def SessionState.add {Row : Type} (s : SessionState Row) (r : Row) :
    SessionState Row :=
  { s with pending := s.pending ++ [r] }

/-- `session.commit()`: consume the next oracle entry; on success the pending
rows are appended to the committed table, on a raise nothing is persisted and
the exception message is returned. -/
def SessionState.commit {Row : Type} (s : SessionState Row) :
    SessionState Row × Option String :=
  match s.oracle with
  | [] => ({ s with table := s.table ++ s.pending, pending := [] }, none)
  | none :: rest =>
      ({ s with table := s.table ++ s.pending, pending := [], oracle := rest },
       none)
  | some e :: rest => ({ s with oracle := rest }, some e)

/-- `session.rollback()`: discard the staged rows; committed rows stay. -/
def SessionState.rollback {Row : Type} (s : SessionState Row) :
    SessionState Row :=
  { s with pending := [] }

/-- Result of running a body under the `get_session` context manager:
the final table contents, the remaining oracle, whether the context
manager's own `session.commit()` succeeded, whether `session.rollback()`
ran, whether `session.close()` ran, and the outcome seen by the caller. -/
structure GatewayRun (Row α : Type) where
  table : List Row
  oracle : List (Option String)
  commitSucceeded : Bool
  rolledBack : Bool
  closed : Bool
  outcome : Except String α

/-- `get_session` from `src/shared/utils/database.py`: create a session,
run the body (`yield session`); on normal return call `session.commit()`,
and if that raises, roll back and re-raise; on a body exception roll back
and re-raise; `session.close()` runs on every path (`finally`). -/
def get_session {Row α : Type} (table : List Row)
    (oracle : List (Option String))
    (body : SessionState Row → SessionState Row × Except String α) :
    GatewayRun Row α :=
  let s0 : SessionState Row := ⟨table, [], oracle⟩
  match body s0 with
  | (s1, Except.ok a) =>
      match s1.commit with
      | (s2, none) => ⟨s2.table, s2.oracle, true, false, true, Except.ok a⟩
      | (s2, some e) =>
          let s3 := s2.rollback
          ⟨s3.table, s3.oracle, false, true, true, Except.error e⟩
  | (s1, Except.error e) =>
      let s2 := s1.rollback
      ⟨s2.table, s2.oracle, false, true, true, Except.error e⟩

/-!
## Logging tools (`src/services/ai-data-logger/health_log_tools.py`)

Each tool builds a row from its keyword arguments inside
`with get_session() as session`, stages it with `session.add`, commits with
`session.commit()`, and returns the success dictionary; the surrounding
`try`/`except Exception` turns any raised exception `e` into
`{"success": False, "error": str(e)}`.  The result type below mirrors the
returned dictionaries: `success` carries the `"logged"` value and the echoed
fields, `failure` carries the `"error"` string.
-/

/-- The dictionary a logging tool returns: either
`{"success": True, "logged": l, ...echoed fields}` or
`{"success": False, "error": e}`. -/
inductive LogResult (Echo : Type) where
  | success (logged : String) (fields : Echo)
  | failure (error : String)
deriving DecidableEq, Repr

/-- Echoed fields of a successful `log_heart_data` call, keyed
`datetime`, `systolic`, `diastolic`, `heart_rate`. -/
structure HeartEcho where
  datetime : String
  systolic : Int
  diastolic : Int
  heart_rate : Int
deriving DecidableEq, Repr

/-- Echoed fields of a successful `log_body_data` call, keyed
`datetime`, `weight`, `muscle_mass`, `body_fat`, `water_ratio`. -/
structure BodyEcho where
  datetime : String
  weight : Rat
  muscle_mass : Rat
  body_fat : Rat
  water_ratio : Rat
deriving DecidableEq, Repr

/-- Echoed fields of a successful `log_sauna_data` call, keyed
`datetime`, `duration`.  There is no temperature field. -/
structure SaunaEcho where
  datetime : String
  duration : Int
deriving DecidableEq, Repr

/-- `log_heart_data` from `health_log_tools.py`, over an explicit store and
commit oracle.  Inside `get_session`: build the `HeartLog` row, `session.add`
it, `session.commit()`; the context manager then commits again on exit.  The
tool's `try`/`except` maps a raised exception to the failure dictionary. -/
def log_heart_data (store : Store) (oracle : List (Option String))
    (datetime_value : PyDateTime) (systolic_mmhg diastolic_mmhg rate_bpm : Int) :
    Store × LogResult HeartEcho :=
  let body := fun (s : SessionState HeartLog) =>
    let heart_log : HeartLog :=
      ⟨datetime_value, systolic_mmhg, diastolic_mmhg, rate_bpm⟩
    let s := s.add heart_log
    match s.commit with
    | (s, none) => (s, Except.ok ())
    | (s, some e) => (s, Except.error e)
  let g := get_session store.heart_log oracle body
  match g.outcome with
  | Except.ok _ =>
      ({ store with heart_log := g.table },
       LogResult.success "heart data"
         ⟨datetime_value.isoformat, systolic_mmhg, diastolic_mmhg, rate_bpm⟩)
  | Except.error e =>
      ({ store with heart_log := g.table }, LogResult.failure e)

/-- `log_body_data` from `health_log_tools.py`, over an explicit store and
commit oracle. -/
def log_body_data (store : Store) (oracle : List (Option String))
    (datetime_value : PyDateTime) (weight_lb smm_lb pbf ecw_tcw : Rat) :
    Store × LogResult BodyEcho :=
  let body := fun (s : SessionState BodyLog) =>
    let body_log : BodyLog := ⟨datetime_value, weight_lb, smm_lb, pbf, ecw_tcw⟩
    let s := s.add body_log
    match s.commit with
    | (s, none) => (s, Except.ok ())
    | (s, some e) => (s, Except.error e)
  let g := get_session store.body_log oracle body
  match g.outcome with
  | Except.ok _ =>
      ({ store with body_log := g.table },
       LogResult.success "body composition"
         ⟨datetime_value.isoformat, weight_lb, smm_lb, pbf, ecw_tcw⟩)
  | Except.error e =>
      ({ store with body_log := g.table }, LogResult.failure e)

/-- The keyword arguments of `log_sauna_data`, in signature order.  The
tool accepts exactly these two arguments; in particular it has no
`temperature` parameter, although the system prompt in `app/agent.py`
documents one as optional. -/
def log_sauna_data_params : List String := ["datetime_value", "duration_min"]

/-- `log_sauna_data` from `health_log_tools.py`, over an explicit store and
commit oracle. -/
def log_sauna_data (store : Store) (oracle : List (Option String))
    (datetime_value : PyDateTime) (duration_min : Int) :
    Store × LogResult SaunaEcho :=
  let body := fun (s : SessionState SaunaLog) =>
    let sauna_log : SaunaLog := ⟨datetime_value, duration_min⟩
    let s := s.add sauna_log
    match s.commit with
    | (s, none) => (s, Except.ok ())
    | (s, some e) => (s, Except.error e)
  let g := get_session store.sauna_log oracle body
  match g.outcome with
  | Except.ok _ =>
      ({ store with sauna_log := g.table },
       LogResult.success "sauna session"
         ⟨datetime_value.isoformat, duration_min⟩)
  | Except.error e =>
      ({ store with sauna_log := g.table }, LogResult.failure e)

/-!
## Agent graph (`src/services/ai-data-logger/app/agent.py`)

Messages carry a role, a content string, the tool-call requests of an
assistant message (empty for every other role), and — for tool-result
messages — the id and tool name of the call they answer.  The language
model itself is an oracle: given the transient input list it returns the
content and tool-call requests of the next assistant message, which is what
`model_with_tools.invoke` yields.
-/

/-- Message roles of the LangChain message classes used by the service. -/
inductive Role where
  | user
  | assistant
  | system
  | tool
deriving DecidableEq, Repr

/-- A model-emitted tool-call request: an id, the tool name, and the
model-extracted arguments (carried opaquely). -/
structure ToolCall where
  id : String
  name : String
  args : String
deriving DecidableEq, Repr

/-- A conversation message. -/
structure Msg where
  role : Role
  content : String
  tool_calls : List ToolCall
  tool_call_id : String
  name : String
deriving DecidableEq, Repr

/-- `HumanMessage(content)`. -/
def HumanMessage (content : String) : Msg := ⟨Role.user, content, [], "", ""⟩

/-- `AIMessage` with content and tool-call requests. -/
def AIMessage (content : String) (tool_calls : List ToolCall) : Msg :=
  ⟨Role.assistant, content, tool_calls, "", ""⟩

/-- `SystemMessage(content)`. -/
def SystemMessage (content : String) : Msg := ⟨Role.system, content, [], "", ""⟩

/-- `ToolMessage`: the result of one tool call, tagged with the call id and
tool name. -/
def ToolMessage (content : String) (tool_call_id : String) (name : String) :
    Msg :=
  ⟨Role.tool, content, [], tool_call_id, name⟩

/-- Python `str.lower()` (ASCII, as exercised by the service). -/
def pyLower (s : String) : String := String.mk (s.toList.map Char.toLower)

/-- `get_current_time_prompt` from `app/agent.py`: the system prompt with
the current localized time interpolated. -/
def get_current_time_prompt (current_time : String) : String :=
  "You are a health data logging assistant. Your job is to parse natural language health tracking inputs and log them to the appropriate database tables.\n\nCurrent date and time: "
  ++ current_time ++
  "\n\nAvailable logging tools:\n- log_heart_data: For blood pressure and heart rate (requires systolic, diastolic, heart rate)\n- log_body_data: For body composition (requires weight, muscle mass, body fat %, water ratio)\n- log_sauna_data: For sauna sessions (requires duration in minutes; temperature in Fahrenheit is optional)\n\nImportant guidelines:\n1. Parse datetime references carefully. Examples:\n   - \"yesterday at 3pm\" -> calculate from current time\n   - \"this morning\" -> today at a reasonable morning time\n   - \"an hour ago\" -> subtract 1 hour from current time\n2. All times should be in Central Time (US/Central)\n3. If information is missing or unclear, ask for clarification\n4. After logging, summarize what was recorded\n5. Handle multiple entries in a single prompt appropriately\n"

/-- The language model as an oracle: transient input messages to the next
assistant message's content and tool-call requests. -/
def ModelOracle : Type := List Msg → String × List ToolCall

/-- The names of the tools bound to the model in `call_model` and wired
into the tool node in `create_health_logger_agent`
(`tools = [log_heart_data, log_body_data, log_sauna_data]`). -/
def agent_tools : List String :=
  ["log_heart_data", "log_body_data", "log_sauna_data"]

/-- The fact table each bound tool writes, read off the row class each tool
instantiates in `health_log_tools.py`. -/
def tool_target : String → Option String
  | "log_heart_data" => some HeartLog.tablename
  | "log_body_data" => some BodyLog.tablename
  | "log_sauna_data" => some SaunaLog.tablename
  | _ => none

/-- `call_model` from `app/agent.py`: prepend a system message carrying the
timestamped prompt to the transient model input, invoke the model, and
return the assistant message to be appended to the state. -/
def call_model (model : ModelOracle) (current_time : String)
    (messages : List Msg) : Msg :=
  let messages_with_system :=
    SystemMessage (get_current_time_prompt current_time) :: messages
  let response := model messages_with_system
  AIMessage response.1 response.2

/-- The LangGraph terminal-state constant `END`. -/
def END : String := "__end__"

/-- `should_continue` from `app/agent.py`: route to the tool node exactly
when the last message carries tool-call requests
(`hasattr(last_message, "tool_calls") and last_message.tool_calls`). -/
def should_continue (messages : List Msg) (h : messages ≠ []) : String :=
  let last_message := messages.getLast h
  if last_message.tool_calls ≠ [] then "tools" else END

/-- The prebuilt `ToolNode` over the bound tools: execute each requested
call in order and emit one tool-result message per call, tagged with the
call's id and tool name.  `exec` is the dispatch to the named tool with the
model-extracted arguments, returning the stringified tool result. -/
def tool_node (exec : ToolCall → String) (tool_calls : List ToolCall) :
    List Msg :=
  tool_calls.map fun c => ToolMessage (exec c) c.id c.name

/-- The compiled graph of `create_health_logger_agent`: start at the agent
node, run `call_model`, append its message, consult `should_continue`; on
"tools" run the tool node, append its messages, and return to the agent
node; otherwise stop.  The source loop has no iteration cap, so the
embedding is fueled: `some` is a run the graph itself completed, `none`
means the fuel ran out first. -/
def runAgent (model : ModelOracle) (exec : ToolCall → String)
    (current_time : String) : Nat → List Msg → Option (List Msg)
  | 0, _ => none
  | fuel + 1, messages =>
    let response := call_model model current_time messages
    have h1 : messages ++ [response] ≠ [] := by simp
    if should_continue (messages ++ [response]) h1 = "tools" then
      runAgent model exec current_time fuel
        (messages ++ [response] ++ tool_node exec response.tool_calls)
    else
      some (messages ++ [response])

/-- The two chat-model configurations `get_llm_model` can return. -/
inductive LLMModel where
  | chatOpenAI (model : String) (temperature : Int) (api_key : String)
  | chatOllama (model : String) (temperature : Int) (base_url : String)
deriving DecidableEq, Repr

/-- `get_llm_model` from `app/agent.py`: read `LLM_PROVIDER` (default
"ollama"), lowercase it; "openai" requires a truthy `OPENAI_API_KEY`
(Python `if not api_key` also rejects the empty string), "ollama" needs no
credential, and anything else raises. -/
def get_llm_model (llm_provider : Option String)
    (openai_api_key : Option String) : Except String LLMModel :=
  let provider := pyLower (llm_provider.getD "ollama")
  if provider = "openai" then
    match openai_api_key with
    | none =>
        Except.error
          "OPENAI_API_KEY environment variable is required when using OpenAI provider"
    | some api_key =>
        if api_key = "" then
          Except.error
            "OPENAI_API_KEY environment variable is required when using OpenAI provider"
        else
          Except.ok (LLMModel.chatOpenAI "gpt-4o-mini" 0 api_key)
  else if provider = "ollama" then
    Except.ok
      (LLMModel.chatOllama "qwen2.5:7b" 0 "http://host.docker.internal:11434")
  else
    Except.error ("Unsupported LLM provider: " ++ provider)

/-!
## Chat endpoint (`src/services/ai-data-logger/app/main.py`)
-/

/-- `needle` matches at the head of `hay`. -/
def matchesHere : List Char → List Char → Bool
  | [], _ => true
  | _ :: _, [] => false
  | c :: n, d :: h => c == d && matchesHere n h

/-- `needle` occurs somewhere in `hay`. -/
def hasSub : List Char → List Char → Bool
  | n, [] => matchesHere n []
  | n, d :: h => matchesHere n (d :: h) || hasSub n h

/-- Python `needle in hay` on strings: substring containment. -/
def pyIn (needle hay : String) : Bool := hasSub needle.toList hay.toList

/-- The endpoint's logged-item test on one tool message's content:
`"success" in content_str and "true" in content_str.lower()` — the first
check is case-sensitive, the second is applied to the lowercased content. -/
def success_heuristic (content : String) : Bool :=
  pyIn "success" content && pyIn "true" (pyLower content)

/-- A request message of the chat endpoint: the role is constrained by the
`Literal["user", "assistant"]` pydantic field. -/
inductive ReqRole where
  | user
  | assistant
deriving DecidableEq, Repr

/-- One entry of `ChatRequest.messages`. -/
structure ReqMessage where
  role : ReqRole
  content : String
deriving DecidableEq, Repr

/-- The request-to-LangChain conversion in `chat`: "user" becomes a
`HumanMessage`, anything else an `AIMessage` with no tool calls. -/
def to_langchain_messages (msgs : List ReqMessage) : List Msg :=
  msgs.map fun m =>
    match m.role with
    | ReqRole.user => HumanMessage m.content
    | ReqRole.assistant => AIMessage m.content []

/-- The chat endpoint's response: a role-tagged message plus the extracted
logged items `(tool name, raw result content)`. -/
structure ChatOut where
  message_role : String
  message_content : String
  logged_items : List (String × String)
deriving DecidableEq, Repr

/-- The response-building tail of `chat` in `app/main.py`, applied to the
message list the completed agent run returned: take the last message as the
final one, and collect `{"tool": msg.name, "result": msg.content}` for every
`ToolMessage` whose content passes the string-matching success heuristic. -/
def chat (result_messages : List Msg) (h : result_messages ≠ []) : ChatOut :=
  let final_message := result_messages.getLast h
  let logged_items :=
    (result_messages.filter
        fun m => m.role == Role.tool && success_heuristic m.content).map
      fun m => (m.name, m.content)
  ⟨"assistant", final_message.content, logged_items⟩

/-!
## Helper lemmas
-/

lemma getLast_append_single {α : Type} (l : List α) (a : α) (h : l ++ [a] ≠ []) :
    (l ++ [a]).getLast h = a := by
  have h2 : (l ++ [a]).getLast? = some a := by
    rw [List.getLast?_append_cons]
    rfl
  rw [List.getLast?_eq_getLast_of_ne_nil h] at h2
  exact Option.some_injective _ h2

/-!
## Claim theorems
-/

/-- Claim C4: every use of the scoped session commits on normal exit of the
scope, rolls back and re-raises on any exception propagating through the
scope, and closes the session on every exit path. -/
theorem get_session_scope_contract {Row α : Type} (table : List Row)
    (oracle : List (Option String))
    (body : SessionState Row → SessionState Row × Except String α) :
    (get_session table oracle body).closed = true ∧
    (∀ a, (get_session table oracle body).outcome = Except.ok a →
      (get_session table oracle body).commitSucceeded = true ∧
      (get_session table oracle body).rolledBack = false) ∧
    (∀ s1 e, body ⟨table, [], oracle⟩ = (s1, Except.error e) →
      (get_session table oracle body).rolledBack = true ∧
      (get_session table oracle body).outcome = Except.error e ∧
      (get_session table oracle body).commitSucceeded = false) ∧
    (∀ s1 a, body ⟨table, [], oracle⟩ = (s1, Except.ok a) →
      ((get_session table oracle body).outcome = Except.ok a ∧
        (get_session table oracle body).commitSucceeded = true) ∨
      (∃ e, (get_session table oracle body).outcome = Except.error e ∧
        (get_session table oracle body).rolledBack = true)) := by
  rcases hb : body ⟨table, [], oracle⟩ with ⟨s1, r⟩
  rcases r with e | a
  · refine ⟨?_, ?_, ?_, ?_⟩ <;>
      simp_all [get_session]
  · rcases hc : s1.commit with ⟨s2, c⟩
    rcases c with _ | e
    · refine ⟨?_, ?_, ?_, ?_⟩ <;>
        simp_all [get_session]
    · refine ⟨?_, ?_, ?_, ?_⟩ <;>
        simp_all [get_session]

/-- Witness for `get_session_scope_contract` at concrete inputs: a body that
succeeds commits without rollback, and a body that raises rolls back and
re-raises, the session closing in both cases. -/
theorem get_session_scope_contract_witness :
    (get_session ([] : List Nat) []
        (fun s => (s, Except.ok (0 : Nat)))).closed = true ∧
    (get_session ([] : List Nat) []
        (fun s => (s, Except.ok (0 : Nat)))).commitSucceeded = true ∧
    (get_session ([] : List Nat) []
        (fun s => (s, (Except.error "boom" : Except String Nat)))).rolledBack
      = true ∧
    (get_session ([] : List Nat) []
        (fun s => (s, (Except.error "boom" : Except String Nat)))).outcome
      = Except.error "boom" := by
  refine ⟨?_, ?_, ?_, ?_⟩
  · exact (get_session_scope_contract ([] : List Nat) []
      (fun s => (s, Except.ok (0 : Nat)))).1
  · exact ((get_session_scope_contract ([] : List Nat) []
      (fun s => (s, Except.ok (0 : Nat)))).2.1 0 rfl).1
  · exact ((get_session_scope_contract ([] : List Nat) []
      (fun s => (s, (Except.error "boom" : Except String Nat)))).2.2.1
      ⟨[], [], []⟩ "boom" rfl).1
  · exact ((get_session_scope_contract ([] : List Nat) []
      (fun s => (s, (Except.error "boom" : Except String Nat)))).2.2.1
      ⟨[], [], []⟩ "boom" rfl).2.1

/-- Claim C1 (amended): for every logging tool, a persistence exception
raised during the call — whether at the tool's own in-scope commit or at
the gateway's exit commit — is caught and surfaced as `success: false` with
the exception's message as the error, so the error is non-empty whenever
the exception's message is; the tools are total functions into the result
dictionary, so the exception never crosses the tool boundary. -/
theorem tools_catch_persistence_exceptions
    (store : Store) (dt : PyDateTime) (sys dia rate : Int)
    (w smm pbf ecw : Rat) (dur : Int) (e : String)
    (rest : List (Option String)) :
    ((log_heart_data store (some e :: rest) dt sys dia rate).2 =
        LogResult.failure e ∧
      (log_heart_data store (none :: some e :: rest) dt sys dia rate).2 =
        LogResult.failure e) ∧
    ((log_body_data store (some e :: rest) dt w smm pbf ecw).2 =
        LogResult.failure e ∧
      (log_body_data store (none :: some e :: rest) dt w smm pbf ecw).2 =
        LogResult.failure e) ∧
    ((log_sauna_data store (some e :: rest) dt dur).2 =
        LogResult.failure e ∧
      (log_sauna_data store (none :: some e :: rest) dt dur).2 =
        LogResult.failure e) ∧
    (e ≠ "" → ∀ err,
      (log_heart_data store (some e :: rest) dt sys dia rate).2 =
        LogResult.failure err → err ≠ "") := by
  refine ⟨⟨?_, ?_⟩, ⟨?_, ?_⟩, ⟨?_, ?_⟩, ?_⟩ <;>
    simp [log_heart_data, log_body_data, log_sauna_data, get_session,
      SessionState.add, SessionState.commit, SessionState.rollback]

/-- Witness for `tools_catch_persistence_exceptions`: a connection failure
at the in-scope commit of `log_heart_data` and at the exit commit of
`log_sauna_data` both surface as the failure dictionary. -/
theorem tools_catch_persistence_exceptions_witness :
    (log_heart_data Store.empty [some "connection refused"]
        ⟨"2025-07-28T10:12:00-05:00"⟩ 120 80 65).2 =
      LogResult.failure "connection refused" ∧
    (log_sauna_data Store.empty [none, some "connection refused"]
        ⟨"2025-07-28T10:12:00-05:00"⟩ 20).2 =
      LogResult.failure "connection refused" :=
  ⟨(tools_catch_persistence_exceptions Store.empty
      ⟨"2025-07-28T10:12:00-05:00"⟩ 120 80 65 0 0 0 0 20
      "connection refused" []).1.1,
   (tools_catch_persistence_exceptions Store.empty
      ⟨"2025-07-28T10:12:00-05:00"⟩ 120 80 65 0 0 0 0 20
      "connection refused" []).2.2.1.2⟩

/-- Claim C1, counterexample to the claim as stated: the persistence layer
raises an exception whose `str()` is empty (Python permits
`raise Exception()`); `log_heart_data` catches it and returns
`success: false`, but the echoed error message is the empty string, not a
non-empty one. -/
theorem tool_error_message_empty :
    (log_heart_data Store.empty [some ""] ⟨"2025-07-28T10:12:00-05:00"⟩
        120 80 65).2 = LogResult.failure "" := by
  rfl

/-- Claim C2 (amended): a call returning `success: true` appends exactly one
row to the tool's fact table and leaves every other table unchanged; a call
returning `success: false` leaves the store unchanged whenever the failure
arises at or before the tool's in-scope commit (in particular whenever the
first commit raises), but when the gateway's exit commit fails after the
in-scope commit already succeeded, the row remains persisted even though the
tool reports failure. -/
theorem tools_row_effects
    (store : Store) (oracle : List (Option String)) (dt : PyDateTime)
    (sys dia rate : Int) (w smm pbf ecw : Rat) (dur : Int) :
    (∀ l f, (log_heart_data store oracle dt sys dia rate).2 =
        LogResult.success l f →
      (log_heart_data store oracle dt sys dia rate).1 =
        { store with heart_log := store.heart_log ++ [⟨dt, sys, dia, rate⟩] }) ∧
    (∀ e, (log_heart_data store oracle dt sys dia rate).2 =
        LogResult.failure e →
      (log_heart_data store oracle dt sys dia rate).1 = store ∨
      (log_heart_data store oracle dt sys dia rate).1 =
        { store with heart_log := store.heart_log ++ [⟨dt, sys, dia, rate⟩] }) ∧
    (∀ e rest, oracle = some e :: rest →
      (log_heart_data store oracle dt sys dia rate).2 = LogResult.failure e ∧
      (log_heart_data store oracle dt sys dia rate).1 = store) ∧
    (∀ l f, (log_body_data store oracle dt w smm pbf ecw).2 =
        LogResult.success l f →
      (log_body_data store oracle dt w smm pbf ecw).1 =
        { store with body_log := store.body_log ++ [⟨dt, w, smm, pbf, ecw⟩] }) ∧
    (∀ e, (log_body_data store oracle dt w smm pbf ecw).2 =
        LogResult.failure e →
      (log_body_data store oracle dt w smm pbf ecw).1 = store ∨
      (log_body_data store oracle dt w smm pbf ecw).1 =
        { store with body_log := store.body_log ++ [⟨dt, w, smm, pbf, ecw⟩] }) ∧
    (∀ e rest, oracle = some e :: rest →
      (log_body_data store oracle dt w smm pbf ecw).2 = LogResult.failure e ∧
      (log_body_data store oracle dt w smm pbf ecw).1 = store) ∧
    (∀ l f, (log_sauna_data store oracle dt dur).2 =
        LogResult.success l f →
      (log_sauna_data store oracle dt dur).1 =
        { store with sauna_log := store.sauna_log ++ [⟨dt, dur⟩] }) ∧
    (∀ e, (log_sauna_data store oracle dt dur).2 = LogResult.failure e →
      (log_sauna_data store oracle dt dur).1 = store ∨
      (log_sauna_data store oracle dt dur).1 =
        { store with sauna_log := store.sauna_log ++ [⟨dt, dur⟩] }) ∧
    (∀ e rest, oracle = some e :: rest →
      (log_sauna_data store oracle dt dur).2 = LogResult.failure e ∧
      (log_sauna_data store oracle dt dur).1 = store) := by
  rcases oracle with _ | ⟨h1, rest⟩
  · refine ⟨?_, ?_, ?_, ?_, ?_, ?_, ?_, ?_, ?_⟩ <;>
      simp [log_heart_data, log_body_data, log_sauna_data, get_session,
        SessionState.add, SessionState.commit, SessionState.rollback]
  · rcases h1 with _ | e1
    · rcases rest with _ | ⟨h2, rrest⟩
      · refine ⟨?_, ?_, ?_, ?_, ?_, ?_, ?_, ?_, ?_⟩ <;>
          simp [log_heart_data, log_body_data, log_sauna_data, get_session,
            SessionState.add, SessionState.commit, SessionState.rollback]
      · rcases h2 with _ | e2
        · refine ⟨?_, ?_, ?_, ?_, ?_, ?_, ?_, ?_, ?_⟩ <;>
            simp [log_heart_data, log_body_data, log_sauna_data, get_session,
              SessionState.add, SessionState.commit, SessionState.rollback]
        · refine ⟨?_, ?_, ?_, ?_, ?_, ?_, ?_, ?_, ?_⟩ <;>
            simp [log_heart_data, log_body_data, log_sauna_data, get_session,
              SessionState.add, SessionState.commit, SessionState.rollback]
    · refine ⟨?_, ?_, ?_, ?_, ?_, ?_, ?_, ?_, ?_⟩ <;>
        simp [log_heart_data, log_body_data, log_sauna_data, get_session,
          SessionState.add, SessionState.commit, SessionState.rollback]

/-- Witness for `tools_row_effects`: with a healthy persistence layer a
`log_heart_data` call appends exactly its one row to `heart_log`. -/
theorem tools_row_effects_witness :
    (log_heart_data Store.empty [] ⟨"2025-07-28T10:12:00-05:00"⟩
        120 80 65).1 =
      { Store.empty with
        heart_log := [⟨⟨"2025-07-28T10:12:00-05:00"⟩, 120, 80, 65⟩] } :=
  (tools_row_effects Store.empty [] ⟨"2025-07-28T10:12:00-05:00"⟩
      120 80 65 0 0 0 0 20).1 "heart data"
    ⟨"2025-07-28T10:12:00-05:00", 120, 80, 65⟩ rfl

/-- Claim C2, counterexample to the claim as stated: the tool's in-scope
commit persists the row, then the gateway's exit commit raises; the tool
returns `success: false`, yet one row has been inserted — the rollback
cannot undo the already-committed insert. -/
theorem tool_failure_with_row_inserted :
    (log_heart_data Store.empty
        [none, some "server closed the connection unexpectedly"]
        ⟨"2025-07-28T10:12:00-05:00"⟩ 120 80 65) =
      ({ Store.empty with
          heart_log := [⟨⟨"2025-07-28T10:12:00-05:00"⟩, 120, 80, 65⟩] },
       LogResult.failure "server closed the connection unexpectedly") := by
  rfl

/-- Claim C5: every successful tool invocation returns the success
dictionary whose `logged` field names the kind of record and whose echoed
domain fields — the ISO-rendered timestamp included — equal the caller's
input fields. -/
theorem tools_success_echo
    (store : Store) (oracle : List (Option String)) (dt : PyDateTime)
    (sys dia rate : Int) (w smm pbf ecw : Rat) (dur : Int) :
    (∀ l f, (log_heart_data store oracle dt sys dia rate).2 =
        LogResult.success l f →
      l = "heart data" ∧ f = ⟨dt.isoformat, sys, dia, rate⟩) ∧
    (∀ l f, (log_body_data store oracle dt w smm pbf ecw).2 =
        LogResult.success l f →
      l = "body composition" ∧ f = ⟨dt.isoformat, w, smm, pbf, ecw⟩) ∧
    (∀ l f, (log_sauna_data store oracle dt dur).2 =
        LogResult.success l f →
      l = "sauna session" ∧ f = ⟨dt.isoformat, dur⟩) := by
  rcases oracle with _ | ⟨h1, rest⟩
  · refine ⟨?_, ?_, ?_⟩ <;>
      simp [log_heart_data, log_body_data, log_sauna_data, get_session,
        SessionState.add, SessionState.commit, SessionState.rollback]
  · rcases h1 with _ | e1
    · rcases rest with _ | ⟨h2, rrest⟩
      · refine ⟨?_, ?_, ?_⟩ <;>
          simp [log_heart_data, log_body_data, log_sauna_data, get_session,
            SessionState.add, SessionState.commit, SessionState.rollback]
      · rcases h2 with _ | e2
        · refine ⟨?_, ?_, ?_⟩ <;>
            simp [log_heart_data, log_body_data, log_sauna_data, get_session,
              SessionState.add, SessionState.commit, SessionState.rollback]
        · refine ⟨?_, ?_, ?_⟩ <;>
            simp [log_heart_data, log_body_data, log_sauna_data, get_session,
              SessionState.add, SessionState.commit, SessionState.rollback]
    · refine ⟨?_, ?_, ?_⟩ <;>
        simp [log_heart_data, log_body_data, log_sauna_data, get_session,
          SessionState.add, SessionState.commit, SessionState.rollback]

/-- Witness for `tools_success_echo`: the 174°F/20-minute sauna scenario's
successful call echoes the localized timestamp and duration as supplied. -/
theorem tools_success_echo_witness :
    ("sauna session" : String) = "sauna session" ∧
    (⟨"2025-07-28T10:12:00-05:00", 20⟩ : SaunaEcho) =
      ⟨PyDateTime.isoformat ⟨"2025-07-28T10:12:00-05:00"⟩, 20⟩ := by
  have h := ((tools_success_echo Store.empty []
      ⟨"2025-07-28T10:12:00-05:00"⟩ 120 80 65 0 0 0 0 20).2.2
      "sauna session" ⟨"2025-07-28T10:12:00-05:00", 20⟩ rfl)
  exact ⟨h.1, h.2 ▸ rfl⟩

set_option maxRecDepth 100000 in
/-- Claim C6 (code-bug evidence): the system prompt shipped in
`app/agent.py` documents an optional temperature for `log_sauna_data`, but
the tool's signature has no temperature parameter, and the successful call
of the 174°F/20-minute scenario persists a `sauna_log` row carrying only
the timestamp and the duration — no temperature can be accepted or
stored. -/
theorem sauna_temperature_missing :
    pyIn "temperature in Fahrenheit is optional"
      (get_current_time_prompt "2025-07-28 10:12:00 CDT") = true ∧
    log_sauna_data_params.contains "temperature" = false ∧
    log_sauna_data Store.empty [] ⟨"2025-07-28T10:12:00-05:00"⟩ 20 =
      ({ Store.empty with
          sauna_log := [⟨⟨"2025-07-28T10:12:00-05:00"⟩, 20⟩] },
       LogResult.success "sauna session"
         ⟨"2025-07-28T10:12:00-05:00", 20⟩) := by
  refine ⟨by decide, by decide, by rfl⟩

/-- Claim C7, counterexample: `nutrition_log` is one of the six fact
tables, yet none of the three tools bound to the dispatch loop's model
writes to it. -/
theorem fact_table_without_tool :
    "nutrition_log" ∈ fact_tables ∧
    (agent_tools.map tool_target).contains (some "nutrition_log") = false := by
  exact ⟨by decide, by decide⟩

/-- Claim C7 (amended): the schema has six fact tables but only three
logging tools are bound to the dispatch loop's model — exactly one each for
the heart, body-composition, and sauna tables; the nutrition, caffeine, and
alcohol tables have no corresponding tool. -/
theorem bound_tools_cover_three_tables :
    fact_tables.length = 6 ∧
    agent_tools.map tool_target =
      [some HeartLog.tablename, some BodyLog.tablename,
       some SaunaLog.tablename] ∧
    fact_tables.filter
        (fun tb => (agent_tools.map tool_target).contains (some tb)) =
      [HeartLog.tablename, BodyLog.tablename, SaunaLog.tablename] := by
  refine ⟨rfl, by decide, by decide⟩

/-- Claim C9: model-selection configuration errors are raised eagerly at
model-selection time — a provider string that lowercases to neither
"openai" nor "ollama" makes `get_llm_model` raise, and so does the
"openai" provider without an `OPENAI_API_KEY`. -/
theorem get_llm_model_config_errors
    (llm_provider openai_api_key : Option String) :
    (pyLower (llm_provider.getD "ollama") ≠ "openai" →
      pyLower (llm_provider.getD "ollama") ≠ "ollama" →
      ∃ e, get_llm_model llm_provider openai_api_key = Except.error e) ∧
    (pyLower (llm_provider.getD "ollama") = "openai" →
      openai_api_key = none →
      get_llm_model llm_provider openai_api_key =
        Except.error
          "OPENAI_API_KEY environment variable is required when using OpenAI provider") := by
  constructor
  · intro h1 h2
    refine ⟨"Unsupported LLM provider: " ++ pyLower (llm_provider.getD "ollama"), ?_⟩
    simp [get_llm_model, h1, h2]
  · intro h1 h2
    subst h2
    simp [get_llm_model, h1]

/-- Witness for `get_llm_model_config_errors`: the unsupported provider
"groq" raises, and provider "OpenAI" (lowercased to "openai") with no API
key raises the missing-credential error. -/
theorem get_llm_model_config_errors_witness :
    (∃ e, get_llm_model (some "groq") none = Except.error e) ∧
    get_llm_model (some "OpenAI") none =
      Except.error
        "OPENAI_API_KEY environment variable is required when using OpenAI provider" :=
  ⟨(get_llm_model_config_errors (some "groq") none).1 (by decide) (by decide),
   (get_llm_model_config_errors (some "OpenAI") none).2 (by decide) rfl⟩

lemma matchesHere_iff (n h : List Char) :
    matchesHere n h = true ↔ n <+: h := by
  induction n generalizing h with
  | nil => simp [matchesHere]
  | cons c n ih =>
    cases h with
    | nil => simp [matchesHere]
    | cons d t =>
      simp [matchesHere, ih, List.cons_prefix_cons]

lemma hasSub_iff (n h : List Char) :
    hasSub n h = true ↔ n <:+: h := by
  induction h with
  | nil => simp [hasSub, matchesHere_iff]
  | cons d t ih =>
    simp [hasSub, matchesHere_iff, ih, List.infix_cons_iff]

lemma runAgent_succ (model : ModelOracle) (exec : ToolCall → String)
    (t : String) (fuel : Nat) (messages : List Msg) :
    runAgent model exec t (fuel + 1) messages =
      if (call_model model t messages).tool_calls = [] then
        some (messages ++ [call_model model t messages])
      else
        runAgent model exec t fuel
          (messages ++ [call_model model t messages] ++
            tool_node exec (call_model model t messages).tool_calls) := by
  show (if should_continue (messages ++ [call_model model t messages])
      (by simp) = "tools" then
      runAgent model exec t fuel
        (messages ++ [call_model model t messages] ++
          tool_node exec (call_model model t messages).tool_calls)
    else some (messages ++ [call_model model t messages])) = _
  have hsc : should_continue (messages ++ [call_model model t messages])
      (by simp) =
        if (call_model model t messages).tool_calls ≠ [] then "tools"
        else END := by
    simp [should_continue, getLast_append_single]
  rw [hsc]
  by_cases hc : (call_model model t messages).tool_calls = []
  · simp [hc, END]
  · simp [hc]

lemma runAgent_some_shape (model : ModelOracle) (exec : ToolCall → String)
    (t : String) :
    ∀ (fuel : Nat) (messages out : List Msg),
      runAgent model exec t fuel messages = some out →
      ∃ tail, out = messages ++ tail ∧
        (∀ m ∈ tail, m.role = Role.assistant ∨ m.role = Role.tool) ∧
        ∃ last, out.getLast? = some last ∧ last.role = Role.assistant ∧
          last.tool_calls = [] := by
  intro fuel
  induction fuel with
  | zero =>
    intro messages out h
    simp [runAgent] at h
  | succ fuel ih =>
    intro messages out h
    rw [runAgent_succ] at h
    by_cases hc : (call_model model t messages).tool_calls = []
    · rw [if_pos hc, Option.some.injEq] at h
      subst h
      refine ⟨[call_model model t messages], rfl, ?_, ?_⟩
      · intro m hm
        simp only [List.mem_singleton] at hm
        subst hm
        exact Or.inl rfl
      · refine ⟨call_model model t messages, ?_, rfl, hc⟩
        rw [List.getLast?_append_cons]
        rfl
    · rw [if_neg hc] at h
      obtain ⟨tail, htail, hroles, hlast⟩ := ih _ _ h
      refine ⟨[call_model model t messages] ++
        tool_node exec (call_model model t messages).tool_calls ++ tail,
        ?_, ?_, hlast⟩
      · rw [htail]
        simp [List.append_assoc]
      · intro m hm
        simp only [List.mem_append, List.mem_singleton] at hm
        rcases hm with (rfl | hm) | hm
        · exact Or.inl rfl
        · right
          simp only [tool_node, List.mem_map] at hm
          obtain ⟨c, _, rfl⟩ := hm
          rfl
        · exact hroles m hm

/-- Claim C3: the dispatch loop routes from the reason step to the act step
iff the assistant message just emitted carries at least one tool-call
request, and to the terminal state otherwise; the act step emits exactly
one tool-result message per requested call, in order and tagged with the
call's id, before the loop returns to the reason step; and a run the loop
itself completed ends with an assistant message carrying no tool-call
requests. -/
theorem dispatch_loop_transitions (model : ModelOracle)
    (exec : ToolCall → String) (t : String) :
    (∀ (messages : List Msg) (h : messages ≠ []),
      (should_continue messages h = "tools" ↔
        (messages.getLast h).tool_calls ≠ []) ∧
      (should_continue messages h = END ↔
        (messages.getLast h).tool_calls = [])) ∧
    (∀ calls, (tool_node exec calls).length = calls.length ∧
      (tool_node exec calls).map (fun m => m.tool_call_id) =
        calls.map (fun c => c.id) ∧
      (∀ m, m ∈ tool_node exec calls → m.role = Role.tool)) ∧
    (∀ (fuel : Nat) (messages : List Msg),
      ((call_model model t messages).tool_calls = [] →
        runAgent model exec t (fuel + 1) messages =
          some (messages ++ [call_model model t messages])) ∧
      ((call_model model t messages).tool_calls ≠ [] →
        runAgent model exec t (fuel + 1) messages =
          runAgent model exec t fuel
            (messages ++ [call_model model t messages] ++
              tool_node exec (call_model model t messages).tool_calls))) ∧
    (∀ (fuel : Nat) (messages out : List Msg),
      runAgent model exec t fuel messages = some out →
      ∃ last, out.getLast? = some last ∧ last.role = Role.assistant ∧
        last.tool_calls = []) := by
  refine ⟨?_, ?_, ?_, ?_⟩
  · intro messages h
    by_cases hc : (messages.getLast h).tool_calls = []
    · constructor <;> simp [should_continue, hc, END]
    · constructor <;> simp [should_continue, hc, END]
  · intro calls
    refine ⟨by simp [tool_node], by simp [tool_node, ToolMessage], ?_⟩
    intro m hm
    simp only [tool_node, List.mem_map] at hm
    obtain ⟨c, _, rfl⟩ := hm
    rfl
  · intro fuel messages
    constructor
    · intro hc
      rw [runAgent_succ, if_pos hc]
    · intro hc
      rw [runAgent_succ, if_neg hc]
  · intro fuel messages out h
    obtain ⟨_, _, _, hlast⟩ :=
      runAgent_some_shape model exec t fuel messages out h
    exact hlast

/-- Witness for `dispatch_loop_transitions`: a model that emits no tool
calls routes the loop to the terminal state, and one fueled step of the
loop returns the history extended by that single assistant message. -/
theorem dispatch_loop_transitions_witness :
    should_continue [AIMessage "done" []] (by simp) = END ∧
    runAgent (fun _ => ("done", [])) (fun _ => "ok") "now" 1 [] =
      some [AIMessage "done" []] := by
  have h := dispatch_loop_transitions (fun _ => ("done", []))
    (fun _ => "ok") "now"
  refine ⟨?_, ?_⟩
  · exact (h.1 [AIMessage "done" []] (by simp)).2.mpr rfl
  · exact (h.2.2.1 0 []).1 rfl

/-- Claim C10: every reason step appends exactly one assistant message;
the timestamped system prompt is prepended only to the transient model
input and never stored, so a completed run returns the original request
messages (all user/assistant) as a prefix, followed only by assistant and
tool-result messages, with no system message anywhere in the history. -/
theorem reason_step_history_invariant (model : ModelOracle)
    (exec : ToolCall → String) (t : String) :
    (∀ messages, (call_model model t messages).role = Role.assistant) ∧
    (∀ messages, call_model model t messages =
      AIMessage
        (model (SystemMessage (get_current_time_prompt t) :: messages)).1
        (model (SystemMessage (get_current_time_prompt t) :: messages)).2) ∧
    (∀ req m, m ∈ to_langchain_messages req →
      m.role = Role.user ∨ m.role = Role.assistant) ∧
    (∀ (fuel : Nat) (req : List ReqMessage) (out : List Msg),
      runAgent model exec t fuel (to_langchain_messages req) = some out →
      ∃ tail, out = to_langchain_messages req ++ tail ∧
        (∀ m ∈ tail, m.role = Role.assistant ∨ m.role = Role.tool) ∧
        ∀ m ∈ out, m.role ≠ Role.system) := by
  refine ⟨fun _ => rfl, fun _ => rfl, ?_, ?_⟩
  · intro req m hm
    simp only [to_langchain_messages, List.mem_map] at hm
    obtain ⟨r, _, rfl⟩ := hm
    rcases r with ⟨rr, rc⟩
    cases rr
    · exact Or.inl rfl
    · exact Or.inr rfl
  · intro fuel req out h
    obtain ⟨tail, htail, hroles, _⟩ :=
      runAgent_some_shape model exec t fuel _ out h
    refine ⟨tail, htail, hroles, ?_⟩
    intro m hm
    rw [htail] at hm
    rcases List.mem_append.mp hm with hm | hm
    · simp only [to_langchain_messages, List.mem_map] at hm
      obtain ⟨r, _, rfl⟩ := hm
      rcases r with ⟨rr, rc⟩
      cases rr <;> simp [HumanMessage, AIMessage]
    · rcases hroles m hm with h1 | h1 <;> simp [h1]

/-- Witness for `reason_step_history_invariant`: the reason step's output
is an assistant message, and a one-turn run over a single user message
yields that original message followed by the assistant reply, with no
system message stored. -/
theorem reason_step_history_invariant_witness :
    (call_model (fun _ => ("done", [])) "now" []).role = Role.assistant ∧
    ∃ tail,
      [HumanMessage "hi", AIMessage "done" []] =
        to_langchain_messages [⟨ReqRole.user, "hi"⟩] ++ tail ∧
      (∀ m ∈ tail, m.role = Role.assistant ∨ m.role = Role.tool) ∧
      ∀ m ∈ [HumanMessage "hi", AIMessage "done" []],
        m.role ≠ Role.system := by
  have h := reason_step_history_invariant (fun _ => ("done", []))
    (fun _ => "ok") "now"
  exact ⟨h.1 [], h.2.2.2 1 [⟨ReqRole.user, "hi"⟩]
    [HumanMessage "hi", AIMessage "done" []] rfl⟩

/-- Claim C8: the chat endpoint returns the trailing message of the
completed loop run re-tagged with role "assistant" (a completed run's last
message is indeed the assistant's), and `logged_items` contains exactly
those tool-result messages whose content contains the substring "success"
and whose lowercased content contains the substring "true" — a textual
heuristic over the stringified result, not a structural parse. -/
theorem chat_endpoint_extraction :
    (∀ (msgs : List Msg) (h : msgs ≠ []),
      (chat msgs h).message_role = "assistant" ∧
      (chat msgs h).message_content = (msgs.getLast h).content ∧
      (∀ tname c, (tname, c) ∈ (chat msgs h).logged_items ↔
        ∃ m, m ∈ msgs ∧ m.role = Role.tool ∧ m.name = tname ∧
          m.content = c ∧
          "success".toList <:+: m.content.toList ∧
          "true".toList <:+: (pyLower m.content).toList)) ∧
    (∀ (model : ModelOracle) (exec : ToolCall → String) (t : String)
        (fuel : Nat) (init out : List Msg),
      runAgent model exec t fuel init = some out →
      ∃ last, out.getLast? = some last ∧ last.role = Role.assistant) := by
  constructor
  · intro msgs h
    refine ⟨rfl, rfl, ?_⟩
    intro tn c
    simp only [chat, List.mem_map, List.mem_filter, Bool.and_eq_true,
      beq_iff_eq, success_heuristic, pyIn, hasSub_iff, Prod.mk.injEq]
    constructor
    · rintro ⟨m, ⟨hmem, hrole, hs, ht⟩, hname, hcontent⟩
      exact ⟨m, hmem, hrole, hname, hcontent, hs, ht⟩
    · rintro ⟨m, hmem, hrole, hname, hcontent, hs, ht⟩
      exact ⟨m, ⟨hmem, hrole, hs, ht⟩, hname, hcontent⟩
  · intro model exec t fuel init out hrun
    obtain ⟨_, _, _, last, hl, hrole, _⟩ :=
      runAgent_some_shape model exec t fuel init out hrun
    exact ⟨last, hl, hrole⟩

/-- Witness for `chat_endpoint_extraction`: a tool result whose content
textually signals success is extracted into `logged_items` under its tool
name. -/
theorem chat_endpoint_extraction_witness :
    ("log_sauna_data", "success: True") ∈
      (chat [ToolMessage "success: True" "1" "log_sauna_data",
          AIMessage "Logged." []] (by simp)).logged_items := by
  have h := (chat_endpoint_extraction.1
      [ToolMessage "success: True" "1" "log_sauna_data",
       AIMessage "Logged." []] (by simp)).2.2 "log_sauna_data"
      "success: True"
  refine h.mpr ⟨ToolMessage "success: True" "1" "log_sauna_data",
    List.mem_cons_self _ _, rfl, rfl, rfl, ?_, ?_⟩
  · exact (hasSub_iff _ _).mp (by decide)
  · exact (hasSub_iff _ _).mp (by decide)
